import Mathlib

/-!
Verification of the car-rental core: the validation schemas
(`app/schemas/car.py`, `app/schemas/review.py`) and the ownership/role
authorization checks in the car router (`app/routers/car.py`).

Pure Python validators become Lean functions returning `Except`; pydantic
field constraints (`ge`, `le`, `max_length`, required-ness) are translated
into explicit checks, in field-declaration order.  The wall-clock calendar
year read by `datetime.now().year` is passed in as an explicit parameter.
Floating-point prices are modelled as rationals (the source only compares
them against integer bounds).
-/

namespace CarRental

/-- Structured validation failure.  The constructors follow the error
taxonomy of the design document (out-of-range numeric/date, string too
long, value outside an enumerated set, required field absent); each carries
the human-readable message produced at the failure site. -/
inductive ValidationErr where
  | outOfRange (msg : String)
  | tooLong (msg : String)
  | invalidEnum (msg : String)
  | missingField (msg : String)
  deriving DecidableEq, Repr

/-- Does the result represent acceptance? -/
def vOk {α : Type} (r : Except ValidationErr α) : Bool :=
  match r with
  | .ok _ => true
  | .error _ => false

/-- Did validation fail with an `outOfRange` error? -/
def vIsOutOfRange {α : Type} (r : Except ValidationErr α) : Bool :=
  match r with
  | .error (.outOfRange _) => true
  | _ => false

/-- Did validation fail with a `tooLong` error? -/
def vIsTooLong {α : Type} (r : Except ValidationErr α) : Bool :=
  match r with
  | .error (.tooLong _) => true
  | _ => false

/-- Did validation fail with a `missingField` error? -/
def vIsMissingField {α : Type} (r : Except ValidationErr α) : Bool :=
  match r with
  | .error (.missingField _) => true
  | _ => false

/-- `validate_year` from `app/schemas/car.py` lines 9-17.  The Python code
reads `datetime.now().year`; here that wall-clock value is the explicit
parameter `now_year`.  As in the source, the local `current_year` is the
calendar year plus one, the upper-bound check runs first, and its message
embeds the computed boundary year. -/
def validate_year (now_year : Int) (value : Int) : Except ValidationErr Int :=
  let current_year := now_year + 1
  if value > current_year then
    .error (.outOfRange
      ("Year cannot be in the future. Current year is " ++ toString current_year ++ "."))
  else if value < 1900 then
    .error (.outOfRange "Year cannot be earlier than 1900")
  else
    .ok value

/-- Unfolding lemma for `validate_year` with its local binding inlined. -/
theorem validate_year_eq (now_year value : Int) :
    validate_year now_year value =
      if value > now_year + 1 then
        .error (.outOfRange
          ("Year cannot be in the future. Current year is "
            ++ toString (now_year + 1) ++ "."))
      else if value < 1900 then
        .error (.outOfRange "Year cannot be earlier than 1900")
      else
        .ok value := rfl

/-- C2: for every integer year `y`, `validate_year` succeeds iff
`1900 ≤ y ≤ now_year + 1`; when `y` exceeds the upper bound the failure is
`outOfRange` with a message embedding the computed boundary year
`now_year + 1`, and when `y < 1900` the failure is `outOfRange`. -/
theorem C2_year_validation (now_year y : Int) :
    (vOk (validate_year now_year y) = true ↔ (1900 ≤ y ∧ y ≤ now_year + 1)) ∧
    (now_year + 1 < y →
      validate_year now_year y =
        .error (.outOfRange
          ("Year cannot be in the future. Current year is "
            ++ toString (now_year + 1) ++ "."))) ∧
    (y < 1900 → vIsOutOfRange (validate_year now_year y) = true) := by
  rw [validate_year_eq]
  refine ⟨?_, ?_, ?_⟩
  · split_ifs with h1 h2 <;> simp [vOk] <;> omega
  · intro h
    rw [if_pos (show y > now_year + 1 from h)]
  · intro h
    split_ifs <;> simp [vIsOutOfRange]

/-- Concrete instance of `C2_year_validation`: in calendar year 2025 the
year 2030 is rejected with the boundary year 2026 in the message, and the
year 1800 is rejected as out of range. -/
theorem C2_year_validation_witness :
    (validate_year 2025 2030 =
      .error (.outOfRange
        ("Year cannot be in the future. Current year is "
          ++ toString (2025 + 1 : Int) ++ "."))) ∧
    vIsOutOfRange (validate_year 2025 1800) = true :=
  ⟨(C2_year_validation 2025 2030).2.1 (by norm_num),
   (C2_year_validation 2025 1800).2.2 (by norm_num)⟩

/-- Modelled from the spec: `app/schemas/enums.py` is not among the given
sources; the design document describes the acting user's role only as
"ordinary vs. admin", and the router compares `current_user.user_type`
against `UserType.ADMIN`. -/
inductive UserType where
  | ADMIN
  | USER
  deriving DecidableEq, Repr

/-- The acting user as the router sees it: an identity and a role, supplied
by the identity collaborator (`oauth2.get_current_user`). -/
structure ActingUser where
  id : Int
  user_type : UserType
  deriving DecidableEq, Repr

/-- A stored car row, with the fields of `CarBase` / `CarDisplay` in
`app/schemas/car.py` (the float `price_per_day` is modelled as a
rational). -/
structure StoredCar where
  id : Int
  owner_id : Int
  make : String
  model : String
  year : Int
  transmission_type : String
  motor_type : String
  price_per_day : Rat
  description : Option String
  is_listed : Bool
  deriving DecidableEq, Repr

/-- The body of a full-create submission, `CarCreate` in
`app/schemas/car.py` lines 39-54: every field is required except
`description` (optional) and defaults for `year` / `is_listed`; modelled
here as the already-parsed field values. -/
structure CarCreate where
  make : String
  model : String
  year : Int
  transmission_type : String
  motor_type : String
  price_per_day : Rat
  description : Option String
  is_listed : Bool
  deriving DecidableEq, Repr

/-- The body of a partial-update submission, `CarUpdate` in
`app/schemas/car.py` lines 57-74: every field is optional; `none` means the
field is absent from the patch. -/
structure CarPatch where
  make : Option String := none
  model : Option String := none
  year : Option Int := none
  transmission_type : Option String := none
  motor_type : Option String := none
  price_per_day : Option Rat := none
  description : Option String := none
  is_listed : Option Bool := none
  deriving DecidableEq, Repr

/-- Validation of a `CarCreate` body.  In the source the only constrained
field is `year` (the `validate_year_field` validator, lines 49-51); `make`,
`model`, `transmission_type`, `motor_type` are plain `str`, `price_per_day`
is a plain `float`, so none of them is checked. -/
def carCreate_validate (now_year : Int) (c : CarCreate) : Except ValidationErr CarCreate :=
  match validate_year now_year c.year with
  | .error e => .error e
  | .ok _ => .ok c

/-- The `price_per_day` constraint of `CarUpdate` (line 63,
`Field(None, ge=0)`): checked only when the field is present. -/
def carUpdate_price_check (p : CarPatch) : Except ValidationErr CarPatch :=
  match p.price_per_day with
  | some v =>
      if v < 0 then
        .error (.outOfRange "Input should be greater than or equal to 0")
      else
        .ok p
  | none => .ok p

/-- Validation of a `CarUpdate` body.  The `year` validator (lines 67-71)
runs only when `year` is present; `price_per_day` carries `ge=0`; all other
fields are unconstrained optional values. -/
def carUpdate_validate (now_year : Int) (p : CarPatch) : Except ValidationErr CarPatch :=
  match p.year with
  | some y =>
      match validate_year now_year y with
      | .error e => .error e
      | .ok _ => carUpdate_price_check p
  | none => carUpdate_price_check p

/-- Modelled from the spec: the merge performed by the persistence
collaborator (`app/services/car.py`, not among the given sources) follows
the design document's merge-patch semantics — only explicitly supplied
patch fields overwrite stored values, absent fields are left untouched. -/
def applyPatch (r : StoredCar) (p : CarPatch) : StoredCar :=
  { r with
    make := p.make.getD r.make
    model := p.model.getD r.model
    year := p.year.getD r.year
    transmission_type := p.transmission_type.getD r.transmission_type
    motor_type := p.motor_type.getD r.motor_type
    price_per_day := p.price_per_day.getD r.price_per_day
    description := match p.description with
      | some v => some v
      | none => r.description
    is_listed := p.is_listed.getD r.is_listed }

/-- The condition under which `update_car` in `app/routers/car.py` (line
214) raises 403: the acting user is not an admin and does not own the
fetched car. -/
def update_car_denies (current_user : ActingUser) (db_car : StoredCar) : Bool :=
  current_user.user_type != UserType.ADMIN && db_car.owner_id != current_user.id

/-- The condition under which `delete_car` in `app/routers/car.py` (line
247) raises 403, written separately in the source with the same shape. -/
def delete_car_denies (current_user : ActingUser) (db_car : StoredCar) : Bool :=
  current_user.user_type != UserType.ADMIN && db_car.owner_id != current_user.id

/-- C1: the authorization check for mutating a car succeeds (does not deny)
iff the acting user is an admin or owns the car; the update and delete
operations apply the identical rule; admins always pass, and a non-admin
passes iff they are the owner. -/
theorem C1_owner_or_admin (u : ActingUser) (c : StoredCar) :
    (update_car_denies u c = false ↔
      (u.user_type = UserType.ADMIN ∨ u.id = c.owner_id)) ∧
    update_car_denies u c = delete_car_denies u c ∧
    (u.user_type = UserType.ADMIN → update_car_denies u c = false) ∧
    (u.user_type ≠ UserType.ADMIN →
      (update_car_denies u c = false ↔ u.id = c.owner_id)) := by
  have h1 : update_car_denies u c = false ↔
      (u.user_type = UserType.ADMIN ∨ u.id = c.owner_id) := by
    unfold update_car_denies
    rw [Bool.and_eq_false_iff, bne_eq_false_iff_eq, bne_eq_false_iff_eq,
      eq_comm (a := c.owner_id)]
  exact ⟨h1, rfl, fun h => h1.mpr (Or.inl h),
    fun h => h1.trans (or_iff_right h)⟩

/-- Concrete instance of `C1_owner_or_admin`: an admin who is not the owner
passes both checks, and a non-admin passes iff they own the car. -/
theorem C1_owner_or_admin_witness :
    update_car_denies ⟨7, UserType.ADMIN⟩
        ⟨1, 42, "m", "m", 2020, "t", "e", 10, none, true⟩ = false ∧
    (update_car_denies ⟨42, UserType.USER⟩
        ⟨1, 42, "m", "m", 2020, "t", "e", 10, none, true⟩ = false ↔
      (42 : Int) = 42) :=
  ⟨(C1_owner_or_admin ⟨7, UserType.ADMIN⟩
      ⟨1, 42, "m", "m", 2020, "t", "e", 10, none, true⟩).2.2.1 rfl,
   (C1_owner_or_admin ⟨42, UserType.USER⟩
      ⟨1, 42, "m", "m", 2020, "t", "e", 10, none, true⟩).2.2.2 (by decide)⟩

/-- A storage-mutating call issued by the router through the service
layer (`car.update_car` / `car.delete_car`). -/
inductive StorageCall where
  | updateCar (car_id : Int) (request : CarPatch)
  | deleteCar (car_id : Int)
  deriving DecidableEq, Repr

/-- Outcome of a mutating car endpoint, as the transport layer sees it. -/
inductive HandlerStatus where
  | ok
  | forbidden403
  | notFound404
  deriving DecidableEq, Repr

/-- The car table, keyed by car id. -/
abbrev Store := List (Int × StoredCar)

/-- Modelled from the spec: `car.get_car` in `app/services/car.py` (not
among the given sources) is a pass-through read-one-by-id. -/
def store_get (s : Store) (car_id : Int) : Option StoredCar :=
  (s.find? (fun p => p.1 == car_id)).map Prod.snd

/-- Modelled from the spec: `car.update_car` in `app/services/car.py` (not
among the given sources) persists the merge-patched record for the given
id. -/
def car_update_car (s : Store) (car_id : Int) (request : CarPatch) : Store :=
  s.map (fun p => if p.1 == car_id then (p.1, applyPatch p.2 request) else p)

/-- Modelled from the spec: `car.delete_car` in `app/services/car.py` (not
among the given sources) removes the record with the given id. -/
def car_delete_car (s : Store) (car_id : Int) : Store :=
  s.filter (fun p => p.1 != car_id)

/-- The `update_car` endpoint, `app/routers/car.py` lines 194-220: fetch
the car, raise 403 when the acting user is neither admin nor owner,
otherwise call `car.update_car`.  The middle component records every
storage-mutating call issued. -/
def update_car_endpoint (s : Store) (car_id : Int) (request : CarPatch)
    (current_user : ActingUser) : HandlerStatus × List StorageCall × Store :=
  match store_get s car_id with
  | none => (.notFound404, [], s)
  | some db_car =>
      if update_car_denies current_user db_car then
        (.forbidden403, [], s)
      else
        (.ok, [.updateCar car_id request], car_update_car s car_id request)

/-- The `delete_car` endpoint, `app/routers/car.py` lines 229-253: fetch
the car, raise 403 when the acting user is neither admin nor owner,
otherwise call `car.delete_car`. -/
def delete_car_endpoint (s : Store) (car_id : Int)
    (current_user : ActingUser) : HandlerStatus × List StorageCall × Store :=
  match store_get s car_id with
  | none => (.notFound404, [], s)
  | some db_car =>
      if delete_car_denies current_user db_car then
        (.forbidden403, [], s)
      else
        (.ok, [.deleteCar car_id], car_delete_car s car_id)

/-- C9: when the authorization check fails — the acting user is neither an
admin nor the owner of the fetched car — both mutating endpoints return
the 403 status, issue no storage-mutating call, and leave the store
unchanged. -/
theorem C9_forbidden_no_mutation (s : Store) (car_id : Int) (request : CarPatch)
    (u : ActingUser) (db_car : StoredCar)
    (hget : store_get s car_id = some db_car)
    (hadm : u.user_type ≠ UserType.ADMIN)
    (hown : u.id ≠ db_car.owner_id) :
    update_car_endpoint s car_id request u = (.forbidden403, [], s) ∧
    delete_car_endpoint s car_id u = (.forbidden403, [], s) := by
  have hd : update_car_denies u db_car = true := by
    unfold update_car_denies
    rw [Bool.and_eq_true, bne_iff_ne, bne_iff_ne]
    exact ⟨hadm, fun h => hown h.symm⟩
  have hd2 : delete_car_denies u db_car = true := hd
  constructor
  · unfold update_car_endpoint
    rw [hget]
    simp [hd]
  · unfold delete_car_endpoint
    rw [hget]
    simp [hd2]

/-- Concrete instance of `C9_forbidden_no_mutation`: user 9 (not an admin,
not the owner) is refused the update and the delete of car 1 owned by
user 42, and the store survives unchanged with no storage call issued. -/
theorem C9_forbidden_no_mutation_witness :
    update_car_endpoint [(1, ⟨1, 42, "m", "m", 2020, "t", "e", 10, none, true⟩)]
        1 {} ⟨9, UserType.USER⟩ =
      (.forbidden403, [], [(1, ⟨1, 42, "m", "m", 2020, "t", "e", 10, none, true⟩)]) ∧
    delete_car_endpoint [(1, ⟨1, 42, "m", "m", 2020, "t", "e", 10, none, true⟩)]
        1 ⟨9, UserType.USER⟩ =
      (.forbidden403, [], [(1, ⟨1, 42, "m", "m", 2020, "t", "e", 10, none, true⟩)]) :=
  C9_forbidden_no_mutation
    [(1, ⟨1, 42, "m", "m", 2020, "t", "e", 10, none, true⟩)] 1 {}
    ⟨9, UserType.USER⟩ ⟨1, 42, "m", "m", 2020, "t", "e", 10, none, true⟩
    rfl (by decide) (by decide)

/-- The `rating` constraint of `ReviewCreate` in `app/schemas/review.py`
line 35 (`Field(..., ge=1, le=5)`); `ReviewBase` line 15 states the same
bounds via `conint(ge=1, le=5)`. -/
def validate_rating (r : Int) : Except ValidationErr Int :=
  if r < 1 then
    .error (.outOfRange "Input should be greater than or equal to 1")
  else if r > 5 then
    .error (.outOfRange "Input should be less than or equal to 5")
  else
    .ok r

/-- The `comment` constraint of `ReviewCreate` in `app/schemas/review.py`
line 36 (`Field(..., max_length=500)`); `ReviewBase` line 18 states the
same bound via `constr(max_length=500)`. -/
def validate_comment (c : String) : Except ValidationErr String :=
  if c.length > 500 then
    .error (.tooLong "String should have at most 500 characters")
  else
    .ok c

/-- C5: for every integer rating `r`, validation succeeds iff
`1 ≤ r ≤ 5`, and a rating outside `[1, 5]` fails with `outOfRange`. -/
theorem C5_rating_validation (r : Int) :
    (vOk (validate_rating r) = true ↔ (1 ≤ r ∧ r ≤ 5)) ∧
    (¬ (1 ≤ r ∧ r ≤ 5) → vIsOutOfRange (validate_rating r) = true) := by
  unfold validate_rating
  constructor
  · split_ifs with h1 h2 <;> simp [vOk] <;> omega
  · intro h
    split_ifs with h1 h2
    · rfl
    · rfl
    · exact absurd ⟨by omega, by omega⟩ h

/-- Concrete instance of `C5_rating_validation`: the rating 6 is rejected
with an out-of-range failure. -/
theorem C5_rating_validation_witness :
    vIsOutOfRange (validate_rating 6) = true :=
  (C5_rating_validation 6).2 (by norm_num)

/-- C6: for every comment string `c`, validation succeeds iff
`c` has at most 500 characters, and a longer comment fails with
`tooLong`. -/
theorem C6_comment_validation (c : String) :
    (vOk (validate_comment c) = true ↔ c.length ≤ 500) ∧
    (500 < c.length → vIsTooLong (validate_comment c) = true) := by
  unfold validate_comment
  constructor
  · split_ifs with h1 <;> simp [vOk] <;> omega
  · intro h
    rw [if_pos (show c.length > 500 from h)]
    rfl

/-- Concrete instance of `C6_comment_validation`: a 501-character comment
is rejected as too long. -/
theorem C6_comment_validation_witness :
    vIsTooLong (validate_comment (String.mk (List.replicate 501 'a'))) = true :=
  (C6_comment_validation (String.mk (List.replicate 501 'a'))).2
    (by show 500 < (List.replicate 501 'a').length
        rw [List.length_replicate]
        norm_num)

/-- An untyped review-create request body before parsing: each field may
be present or absent.  The field list follows `ReviewBase` in
`app/schemas/review.py` lines 11-18, which carries every identity the
review domain model knows, including `reviewer_id`. -/
structure RawReview where
  rental_id : Option Int
  reviewer_id : Option Int
  reviewee_id : Option Int
  rating : Option Int
  comment : Option String
  deriving DecidableEq, Repr

/-- A parsed `ReviewCreate` body, `app/schemas/review.py` lines 32-36: the
schema declares `rental_id`, `reviewee_id`, `rating`, `comment` — and no
`reviewer_id` field. -/
structure ReviewCreate where
  rental_id : Int
  reviewee_id : Int
  rating : Int
  comment : String
  deriving DecidableEq, Repr

/-- Validation of a `ReviewCreate` body against a raw submission: each
declared field is required (pydantic `...` defaults), checked in
declaration order; `rating` carries `ge=1, le=5` and `comment` carries
`max_length=500`.  `reviewer_id` is not a declared field of the schema, so
the raw submission's reviewer identity is never consulted. -/
def reviewCreate_validate (raw : RawReview) : Except ValidationErr ReviewCreate :=
  match raw.rental_id with
  | none => .error (.missingField "rental_id")
  | some rental =>
      match raw.reviewee_id with
      | none => .error (.missingField "reviewee_id")
      | some reviewee =>
          match raw.rating with
          | none => .error (.missingField "rating")
          | some rating0 =>
              match validate_rating rating0 with
              | .error e => .error e
              | .ok rating1 =>
                  match raw.comment with
                  | none => .error (.missingField "comment")
                  | some comment0 =>
                      match validate_comment comment0 with
                      | .error e => .error e
                      | .ok comment1 => .ok ⟨rental, reviewee, rating1, comment1⟩

/-- C8 counterexample: a review-create submission that carries no reviewer
identity at all is accepted by validation, so an accepted submission need
not contain the reviewer identity. -/
theorem C8_counterexample :
    reviewCreate_validate ⟨some 1, none, some 2, some 5, some "ok"⟩ =
      .ok ⟨1, 2, 5, "ok"⟩ ∧
    (⟨some 1, none, some 2, some 5, some "ok"⟩ : RawReview).reviewer_id = none := by
  constructor
  · rfl
  · rfl

/-- C8 (amended): a review-create submission is accepted iff the rental
reference, reviewee identity, rating and comment are all present, with the
rating in `[1, 5]` and the comment at most 500 characters; the reviewer
identity is not part of the create schema and is never consulted; a
submission missing any of the four required fields is rejected, and the
failure is `missingField` whenever the fields that are present are
themselves valid. -/
theorem C8_review_create_required_fields (raw : RawReview) (x : Option Int) :
    (vOk (reviewCreate_validate raw) = true ↔
      ((∃ a, raw.rental_id = some a) ∧ (∃ b, raw.reviewee_id = some b) ∧
       (∃ r, raw.rating = some r ∧ 1 ≤ r ∧ r ≤ 5) ∧
       (∃ c, raw.comment = some c ∧ c.length ≤ 500))) ∧
    (reviewCreate_validate { raw with reviewer_id := x } =
      reviewCreate_validate raw) ∧
    ((raw.rental_id = none ∨ raw.reviewee_id = none ∨
        raw.rating = none ∨ raw.comment = none) →
      vOk (reviewCreate_validate raw) = false) ∧
    ((raw.rental_id = none ∨ raw.reviewee_id = none ∨
        raw.rating = none ∨ raw.comment = none) →
      (∀ r, raw.rating = some r → 1 ≤ r ∧ r ≤ 5) →
      (∀ c, raw.comment = some c → c.length ≤ 500) →
      vIsMissingField (reviewCreate_validate raw) = true) := by
  obtain ⟨rental, reviewer, reviewee, rating, comment⟩ := raw
  have hA : vOk (reviewCreate_validate ⟨rental, reviewer, reviewee, rating, comment⟩) = true ↔
      ((∃ a, rental = some a) ∧ (∃ b, reviewee = some b) ∧
       (∃ r, rating = some r ∧ 1 ≤ r ∧ r ≤ 5) ∧
       (∃ c, comment = some c ∧ c.length ≤ 500)) := by
    cases rental <;> cases reviewee <;> cases rating <;> cases comment <;>
      simp [reviewCreate_validate, vOk, validate_rating, validate_comment] <;>
      split_ifs <;> simp_all
  refine ⟨hA, rfl, ?_, ?_⟩
  · intro hnone
    rcases hv : vOk (reviewCreate_validate ⟨rental, reviewer, reviewee, rating, comment⟩)
      with _ | _
    · rfl
    · exfalso
      obtain ⟨⟨a, ha⟩, ⟨b, hb⟩, ⟨r, hr, _⟩, ⟨c, hc, _⟩⟩ := hA.mp hv
      rcases hnone with h | h | h | h <;> simp_all
  · intro hnone hrat hcom
    cases rental with
    | none => rfl
    | some a =>
      cases reviewee with
      | none => rfl
      | some b =>
        cases rating with
        | none => rfl
        | some r =>
          have hr := hrat r rfl
          cases comment with
          | none =>
            have hvr : validate_rating r = .ok r := by
              unfold validate_rating
              rw [if_neg (by omega), if_neg (by omega)]
            simp [reviewCreate_validate, hvr, vIsMissingField]
          | some c =>
            exfalso
            rcases hnone with h | h | h | h <;> simp_all

/-- Concrete instance of `C8_review_create_required_fields`: a submission
with a valid rating and comment but no rental reference is rejected with a
`missingField` failure, and is not accepted. -/
theorem C8_review_create_required_fields_witness :
    vOk (reviewCreate_validate ⟨none, some 3, some 2, some 5, some "ok"⟩) = false ∧
    vIsMissingField (reviewCreate_validate ⟨none, some 3, some 2, some 5, some "ok"⟩)
      = true :=
  ⟨(C8_review_create_required_fields ⟨none, some 3, some 2, some 5, some "ok"⟩
      none).2.2.1 (Or.inl rfl),
   (C8_review_create_required_fields ⟨none, some 3, some 2, some 5, some "ok"⟩
      none).2.2.2 (Or.inl rfl)
      (by intro r hr; cases hr; constructor <;> norm_num)
      (by intro c hc; cases hc; decide)⟩

/-- C3 counterexample: a full-create car submission with a negative
`price_per_day` is accepted — `CarCreate.price_per_day` in
`app/schemas/car.py` line 45 is a plain `float` with no `ge=0`
constraint, so the create path never rejects a negative price. -/
theorem C3_counterexample :
    carCreate_validate 2025
        ⟨"BMW", "i3", 2020, "automatic", "electric", -5, none, true⟩ =
      .ok ⟨"BMW", "i3", 2020, "automatic", "electric", -5, none, true⟩ := by
  unfold carCreate_validate
  rw [validate_year_eq, if_neg (by norm_num), if_neg (by norm_num)]

/-- C3 (amended): on a partial update a present negative `price_per_day`
is always rejected, with the `outOfRange` failure surfacing directly when
the patch carries no `year`; on a full create `price_per_day` is not
validated at all — changing it cannot change acceptance. -/
theorem C3_price_validation (now_year : Int) (p : CarPatch) (v : Rat) (c : CarCreate) :
    (p.price_per_day = some v → v < 0 →
      vOk (carUpdate_validate now_year p) = false) ∧
    (p.price_per_day = some v → v < 0 → p.year = none →
      carUpdate_validate now_year p =
        .error (.outOfRange "Input should be greater than or equal to 0")) ∧
    (vOk (carCreate_validate now_year { c with price_per_day := v }) =
      vOk (carCreate_validate now_year c)) := by
  refine ⟨?_, ?_, ?_⟩
  · intro hp hv
    unfold carUpdate_validate carUpdate_price_check
    cases hy : p.year with
    | none => simp [hy, hp, hv, vOk]
    | some y =>
      cases hvy : validate_year now_year y with
      | error e => simp [hy, hvy, vOk]
      | ok w => simp [hy, hvy, hp, hv, vOk]
  · intro hp hv hy
    unfold carUpdate_validate carUpdate_price_check
    simp [hy, hp, hv]
  · obtain ⟨mka, mkb, yr, tt, mt, pr, ds, lst⟩ := c
    unfold carCreate_validate
    cases hvy : validate_year now_year yr with
    | error e => simp [hvy, vOk]
    | ok w => simp [hvy, vOk]

/-- Concrete instance of `C3_price_validation`: a patch carrying only the
price `-3` is rejected with the out-of-range failure, and is not
accepted. -/
theorem C3_price_validation_witness :
    vOk (carUpdate_validate 2025 { price_per_day := some (-3) }) = false ∧
    carUpdate_validate 2025 { price_per_day := some (-3) } =
      .error (.outOfRange "Input should be greater than or equal to 0") :=
  ⟨(C3_price_validation 2025 { price_per_day := some (-3) } (-3)
      ⟨"m", "m", 2020, "t", "e", 1, none, true⟩).1 rfl (by norm_num),
   (C3_price_validation 2025 { price_per_day := some (-3) } (-3)
      ⟨"m", "m", 2020, "t", "e", 1, none, true⟩).2.1 rfl (by norm_num) rfl⟩

/-- Modelled from the spec: the enumerated query parameters of the search
endpoint (`CarEngineType`, `CarTransmissionType` from
`app/schemas/enums.py`, not among the given sources) are validated only by
case-sensitive membership in their declared finite value set; a value
outside the set is rejected. -/
def parseEnumParam (declared : List String) (v : String) : Except ValidationErr String :=
  if v ∈ declared then .ok v else .error (.invalidEnum v)

/-- C4 counterexample: in a full-create car submission the transmission
and motor type fields are plain strings — a value outside any declared
finite set is still accepted, so acceptance does not imply membership in
a declared value set. -/
theorem C4_counterexample :
    (carCreate_validate 2025
        ⟨"m", "m", 2020, "warp-drive", "perpetual-motion", 10, none, true⟩ =
      .ok ⟨"m", "m", 2020, "warp-drive", "perpetual-motion", 10, none, true⟩) ∧
    ¬ (∀ (declared : List String) (c : CarCreate),
        vOk (carCreate_validate 2025 c) = true → c.transmission_type ∈ declared) := by
  constructor
  · unfold carCreate_validate
    rw [validate_year_eq, if_neg (by norm_num), if_neg (by norm_num)]
  · intro h
    have hok : vOk (carCreate_validate 2025
        ⟨"m", "m", 2020, "t", "e", 10, none, true⟩) = true := by
      unfold carCreate_validate
      rw [validate_year_eq, if_neg (by norm_num), if_neg (by norm_num)]
      rfl
    have := h [] ⟨"m", "m", 2020, "t", "e", 10, none, true⟩ hok
    simp at this

/-- C4 (amended): the search endpoint's enumerated query parameters are
accepted iff the value is a member of the declared finite set, the
membership check being case-sensitive string equality; the create path
accepts transmission and motor type as opaque strings — changing either
cannot change acceptance. -/
theorem C4_enum_membership (declared : List String) (v : String)
    (now_year : Int) (c : CarCreate) (s : String) :
    (vOk (parseEnumParam declared v) = true ↔ v ∈ declared) ∧
    (vOk (carCreate_validate now_year { c with transmission_type := s }) =
      vOk (carCreate_validate now_year c)) ∧
    (vOk (carCreate_validate now_year { c with motor_type := s }) =
      vOk (carCreate_validate now_year c)) := by
  obtain ⟨mka, mkb, yr, tt, mt, pr, ds, lst⟩ := c
  refine ⟨?_, ?_, ?_⟩
  · unfold parseEnumParam
    split_ifs with h <;> simp [vOk, h]
  · unfold carCreate_validate
    cases hvy : validate_year now_year yr with
    | error e => simp [hvy, vOk]
    | ok w => simp [hvy, vOk]
  · unfold carCreate_validate
    cases hvy : validate_year now_year yr with
    | error e => simp [hvy, vOk]
    | ok w => simp [hvy, vOk]

/-- The all-absent patch: a partial-update body carrying no field. -/
def emptyPatch : CarPatch := {}

/-- A patch carrying only `price_per_day`. -/
def pricePatch (v : Rat) : CarPatch := { price_per_day := some v }

/-- C7: merging a patch that carries only `price_per_day` into a stored
record replaces exactly that field; a patch with no present field
validates successfully against any calendar year (absent fields are not
validated); and every absent field of any patch leaves the stored value
untouched. -/
theorem C7_merge_patch (r : StoredCar) (v : Rat) (now_year : Int) (p : CarPatch) :
    (applyPatch r (pricePatch v) = { r with price_per_day := v }) ∧
    (carUpdate_validate now_year emptyPatch = .ok emptyPatch) ∧
    (p.year = none → p.price_per_day = none →
      carUpdate_validate now_year p = .ok p) ∧
    (p.make = none → (applyPatch r p).make = r.make) ∧
    (p.model = none → (applyPatch r p).model = r.model) ∧
    (p.year = none → (applyPatch r p).year = r.year) ∧
    (p.transmission_type = none →
      (applyPatch r p).transmission_type = r.transmission_type) ∧
    (p.motor_type = none → (applyPatch r p).motor_type = r.motor_type) ∧
    (p.price_per_day = none →
      (applyPatch r p).price_per_day = r.price_per_day) ∧
    (p.description = none → (applyPatch r p).description = r.description) ∧
    (p.is_listed = none → (applyPatch r p).is_listed = r.is_listed) := by
  refine ⟨rfl, rfl, ?_, ?_, ?_, ?_, ?_, ?_, ?_, ?_, ?_⟩
  · intro hy hp
    unfold carUpdate_validate carUpdate_price_check
    simp [hy, hp]
  all_goals intro h
  all_goals unfold applyPatch
  all_goals simp [h]

/-- Concrete instance of `C7_merge_patch`: merging the price-only patch
into a concrete stored car changes only the price, and the patch with no
field validates successfully. -/
theorem C7_merge_patch_witness :
    applyPatch ⟨1, 42, "m", "m", 2020, "t", "e", 10, none, true⟩ (pricePatch 25) =
      ⟨1, 42, "m", "m", 2020, "t", "e", 25, none, true⟩ ∧
    (applyPatch ⟨1, 42, "m", "m", 2020, "t", "e", 10, none, true⟩ emptyPatch).make = "m" ∧
    carUpdate_validate 2025 emptyPatch = .ok emptyPatch :=
  ⟨(C7_merge_patch ⟨1, 42, "m", "m", 2020, "t", "e", 10, none, true⟩ 25
      2025 emptyPatch).1,
   (C7_merge_patch ⟨1, 42, "m", "m", 2020, "t", "e", 10, none, true⟩ 25
      2025 emptyPatch).2.2.2.1 rfl,
   (C7_merge_patch ⟨1, 42, "m", "m", 2020, "t", "e", 10, none, true⟩ 25
      2025 emptyPatch).2.1⟩

/-- The parsed-parameter constraint on `limit` in `search_car`
(`app/routers/car.py` lines 122-127): `Query(..., ge=1, le=QUERY_LIMIT_MAX)`.
The numeric value of `QUERY_LIMIT_MAX` lives in `app/utils/constants.py`
(not among the given sources) and is kept abstract. -/
def search_limit_param_ok (query_limit_max limit : Int) : Bool :=
  1 ≤ limit && limit ≤ query_limit_max

/-- The limit forwarded to `car.search_cars` (`app/routers/car.py` line
144): `min(limit, constants.QUERY_LIMIT_MAX)`. -/
def search_forward_limit (query_limit_max limit : Int) : Int :=
  min limit query_limit_max

/-- C10: the forwarded limit never exceeds `QUERY_LIMIT_MAX`, and for any
limit that passed parameter parsing the extra clamp is a no-op — the
forwarded value equals the parsed limit. -/
theorem C10_limit_clamp (query_limit_max limit : Int) :
    search_forward_limit query_limit_max limit ≤ query_limit_max ∧
    (search_limit_param_ok query_limit_max limit = true →
      search_forward_limit query_limit_max limit = limit) := by
  constructor
  · exact min_le_right _ _
  · intro h
    unfold search_limit_param_ok at h
    rw [Bool.and_eq_true, decide_eq_true_iff, decide_eq_true_iff] at h
    exact min_eq_left h.2

/-- Concrete instance of `C10_limit_clamp`: with a maximum of 100 a parsed
limit of 25 is forwarded unchanged. -/
theorem C10_limit_clamp_witness :
    search_forward_limit 100 25 = 25 :=
  (C10_limit_clamp 100 25).2 (by decide)

end CarRental
